import Mathlib

/-!
Verification of `src/main.py`, a FastAPI application with two GET handlers:
`home` on route "/" renders an HTML page with the container hostname and two
EC2 metadata values, and `health` on route "/api/health" returns a JSON
object with status, service and hostname fields.

The external world visible to one request is modelled by `Env`: the OS
hostname returned by `socket.gethostname()` and the stdout text produced by
the two `os.popen` invocations of `ec2-metadata`.  Python string primitives
used by the handler (`str.split(sep)` with `sep = ": "`, `str.strip()`,
indexing that raises `IndexError`) are embedded as executable Lean
functions on character lists.
-/

/-- Python whitespace predicate used by `str.strip()` (ASCII range). -/
def pyIsSpace (c : Char) : Bool :=
  c = ' ' || c = '\t' || c = '\n' || c = '\r' || c = '\x0b' || c = '\x0c'

/-- Python `s.strip()`: remove whitespace from both ends of the text. -/
def pyStrip (s : List Char) : List Char :=
  ((s.dropWhile pyIsSpace).reverse.dropWhile pyIsSpace).reverse

/-- First occurrence of the two-character separator ": " in a text, as used
by `s.split(': ')` in `main.py` lines 15-16: `some (pre, post)` when the
text is `pre ++ ": " ++ post` with no earlier occurrence, `none` when the
separator does not occur. -/
def splitFirstCS : List Char → Option (List Char × List Char)
  | [] => none
  | c :: rest =>
    if c = ':' ∧ rest.head? = some ' ' then some ([], rest.tail)
    else
      match splitFirstCS rest with
      | some (pre, post) => some (c :: pre, post)
      | none => none

/-- Fuelled worker for Python `s.split(': ')`: split off pieces at each
occurrence of the separator.  The fuel bounds the number of pieces; since
every split strictly shortens the remaining text, fuel `s.length` is always
enough. -/
def pySplitCSAux : Nat → List Char → List (List Char)
  | 0, s => [s]
  | n + 1, s =>
    match splitFirstCS s with
    | none => [s]
    | some (pre, post) => pre :: pySplitCSAux n post

/-- Python `s.split(': ')` on the character list of `s`.  On empty input it
returns `[[]]`, matching Python where `''.split(': ') == ['']`. -/
def pySplitCS (s : List Char) : List (List Char) :=
  pySplitCSAux s.length s

/-- The fallback value assigned by `main.py` lines 18-19 when the metadata
lookup raises. -/
def SENTINEL : String := "N/A (not on EC2)"

/-- Models `output.split(': ')[1].strip()` applied to the text read from one
`ec2-metadata` invocation (`main.py` lines 15-16): `some` parsed value, or
`none` when the index `[1]` raises `IndexError` because the separator ": "
never occurs in the output (in particular on empty output). -/
def parseMetadataOutput (output : String) : Option String :=
  match (pySplitCS output.toList)[1]? with
  | some v => some (pyStrip v).asString
  | none => none

/-- External inputs of one request: the OS hostname and the stdout text of
the two metadata commands (an absent `ec2-metadata` command yields empty
stdout because stderr is redirected to `/dev/null`). -/
structure Env where
  hostname : String
  instanceIdOutput : String
  availabilityZoneOutput : String

/-- The `try`/`except` block of `main.py` lines 14-19.  Both assignments sit
inside one `try`: if parsing either output raises, the bare `except` assigns
the sentinel to both `instance_id` and `availability_zone`, discarding any
value parsed before the exception. -/
def homeMetadata (env : Env) : String × String :=
  match parseMetadataOutput env.instanceIdOutput,
        parseMetadataOutput env.availabilityZoneOutput with
  | some instance_id, some availability_zone => (instance_id, availability_zone)
  | _, _ => (SENTINEL, SENTINEL)

/-- Literal template text of the f-string in `main.py` lines 21-90 before
the `hostname` interpolation, up to the opening of its code element. -/
def tplA : String :=
  "\n" ++
  "    <!DOCTYPE html>\n" ++
  "    <html>\n" ++
  "    <head>\n" ++
  "        <title>Terraform + Docker Web Server</title>\n" ++
  "        <style>\n" ++
  "            body \x7b\n" ++
  "                font-family: Arial, sans-serif;\n" ++
  "                max-width: 800px;\n" ++
  "                margin: 50px auto;\n" ++
  "                padding: 20px;\n" ++
  "                background: linear-gradient(135deg, #667eea 0%, #764ba2 100%);\n" ++
  "                color: white;\n" ++
  "            \x7d\n" ++
  "            .container \x7b\n" ++
  "                background: rgba(255, 255, 255, 0.1);\n" ++
  "                padding: 30px;\n" ++
  "                border-radius: 10px;\n" ++
  "                backdrop-filter: blur(10px);\n" ++
  "            \x7d\n" ++
  "            h1 \x7b\n" ++
  "                margin-top: 0;\n" ++
  "            \x7d\n" ++
  "            .info \x7b\n" ++
  "                background: rgba(0, 0, 0, 0.2);\n" ++
  "                padding: 15px;\n" ++
  "                border-radius: 5px;\n" ++
  "                margin: 10px 0;\n" ++
  "            \x7d\n" ++
  "            code \x7b\n" ++
  "                background: rgba(0, 0, 0, 0.3);\n" ++
  "                padding: 2px 6px;\n" ++
  "                border-radius: 3px;\n" ++
  "            \x7d\n" ++
  "            .badge \x7b\n" ++
  "                display: inline-block;\n" ++
  "                padding: 5px 10px;\n" ++
  "                border-radius: 5px;\n" ++
  "                margin: 5px 5px 5px 0;\n" ++
  "            \x7d\n" ++
  "            .terraform-badge \x7b\n" ++
  "                background: #7B42BC;\n" ++
  "            \x7d\n" ++
  "            .docker-badge \x7b\n" ++
  "                background: #2496ED;\n" ++
  "            \x7d\n" ++
  "        </style>\n" ++
  "    </head>\n" ++
  "    <body>\n" ++
  "        <div class=\"container\">\n" ++
  "            <h1>🚀 Hello from Terraform + Docker!</h1>\n" ++
  "            <p>This containerized application is running on infrastructure provisioned entirely through code.</p>\n" ++
  "\n" ++
  "            <div class=\"info\">\n" ++
  "                <h3>Instance Information:</h3>\n" ++
  "                <p><strong>Container Hostname:</strong> "

/-- Literal template text between the `hostname` and `instance_id`
interpolations. -/
def tplB : String :=
  "</p>\n" ++
  "                <p><strong>Instance ID:</strong> "

/-- Literal template text between the `instance_id` and `availability_zone`
interpolations. -/
def tplC : String :=
  "</p>\n" ++
  "                <p><strong>Availability Zone:</strong> "

/-- Literal template text after the `availability_zone` interpolation, up to
the end of the f-string. -/
def tplD : String :=
  "</p>\n" ++
  "            </div>\n" ++
  "\n" ++
  "            <div>\n" ++
  "                <span class=\"badge terraform-badge\">⚡ Provisioned with Terraform</span>\n" ++
  "                <span class=\"badge docker-badge\">🐳 Running in Docker</span>\n" ++
  "            </div>\n" ++
  "\n" ++
  "            <p>This entire infrastructure - ECR repository, EC2 instance, security group, and container orchestration - was created from declarative configuration files. No clicking required!</p>\n" ++
  "        </div>\n" ++
  "    </body>\n" ++
  "    </html>\n" ++
  "    "

/-- The f-string of `main.py` lines 21-90: fixed literal chunks with the
three values interpolated verbatim (no escaping of any kind). -/
def renderHome (hostname instance_id availability_zone : String) : String :=
  tplA ++ "<code>" ++ hostname ++ "</code>" ++
  tplB ++ "<code>" ++ instance_id ++ "</code>" ++
  tplC ++ "<code>" ++ availability_zone ++ "</code>" ++ tplD

/-- An HTTP response as produced by the framework for a handler return
value: FastAPI wraps a normal handler return in status 200. -/
structure Response where
  status : Nat
  contentType : String
  body : String

/-- The `home` handler (`main.py` lines 9-91, route "/"): read the
hostname, run the metadata lookup with its blanket fallback, render the
template.  The handler body cannot raise, so the framework always emits
status 200 with the rendered HTML. -/
def home (env : Env) : Response :=
  let hostname := env.hostname
  let md := homeMetadata env
  { status := 200
    contentType := "text/html"
    body := renderHome hostname md.1 md.2 }

/-- The dict literal returned by the `health` handler (`main.py` lines
95-99), as an ordered key-value list. -/
def healthDict (hostname : String) : List (String × String) :=
  [("status", "healthy"),
   ("service", "terraform-docker-web-server"),
   ("hostname", hostname)]

/-- A JSON response: status code plus the serialized object, kept as the
ordered key-value list of the dict. -/
structure JsonResponse where
  status : Nat
  body : List (String × String)

/-- The `health` handler (`main.py` lines 93-99, route "/api/health"):
return the fixed dict with the current hostname; FastAPI emits it as JSON
with status 200. -/
def health (hostname : String) : JsonResponse :=
  { status := 200, body := healthDict hostname }

/-- `t` occurs verbatim (character for character) as a substring of `s`. -/
def hasSubstr (s t : String) : Prop :=
  ∃ p q, s = p ++ t ++ q

/-- `t` occurs verbatim at two disjoint places in `s`. -/
def hasSubstrTwice (s t : String) : Prop :=
  ∃ p q r, s = p ++ t ++ q ++ t ++ r

theorem splitFirstCS_append_sep (k v : List Char) (hk : splitFirstCS k = none) :
    splitFirstCS (k ++ ':' :: ' ' :: v) = some (k, v) := by
  induction k with
  | nil => simp [splitFirstCS]
  | cons c k ih =>
    rw [splitFirstCS] at hk
    split at hk
    · exact absurd hk (by simp)
    · rename_i hneg
      have hk' : splitFirstCS k = none := by
        revert hk
        split
        · intro h; exact absurd h (by simp)
        · intro _; assumption
      have ih' := ih hk'
      cases k with
      | nil => simp [splitFirstCS]
      | cons d k' =>
        simp only [List.cons_append] at ih' ⊢
        rw [splitFirstCS, if_neg (by simpa using hneg), ih']

theorem pySplitCSAux_of_none (n : Nat) (s : List Char) (h : splitFirstCS s = none) :
    pySplitCSAux n s = [s] := by
  cases n <;> simp [pySplitCSAux, h]

theorem pySplitCSAux_of_some (n : Nat) (s pre post : List Char)
    (h : splitFirstCS s = some (pre, post)) :
    pySplitCSAux (n + 1) s = pre :: pySplitCSAux n post := by
  simp [pySplitCSAux, h]

theorem pySplitCS_wellformed (k v : List Char) (hk : splitFirstCS k = none)
    (hv : splitFirstCS v = none) :
    pySplitCS (k ++ ':' :: ' ' :: v) = [k, v] := by
  have hlen : (k ++ ':' :: ' ' :: v).length = (k.length + 1 + v.length) + 1 := by
    simp only [List.length_append, List.length_cons]
    omega
  rw [pySplitCS, hlen, pySplitCSAux_of_some _ _ _ _ (splitFirstCS_append_sep k v hk),
    pySplitCSAux_of_none _ _ hv]

theorem parseMetadataOutput_wellformed (out : String) (k v : List Char)
    (h : out.toList = k ++ ':' :: ' ' :: v) (hk : splitFirstCS k = none)
    (hv : splitFirstCS v = none) :
    parseMetadataOutput out = some (pyStrip v).asString := by
  rw [parseMetadataOutput, h, pySplitCS_wellformed k v hk hv]
  rfl

theorem parseMetadataOutput_of_noSep (out : String)
    (h : splitFirstCS out.toList = none) :
    parseMetadataOutput out = none := by
  rw [parseMetadataOutput, pySplitCS, pySplitCSAux_of_none _ _ h]
  rfl

theorem homeMetadata_of_success (env : Env) (i a : String)
    (hI : parseMetadataOutput env.instanceIdOutput = some i)
    (hA : parseMetadataOutput env.availabilityZoneOutput = some a) :
    homeMetadata env = (i, a) := by
  rw [homeMetadata, hI, hA]

theorem homeMetadata_of_fail (env : Env)
    (h : parseMetadataOutput env.instanceIdOutput = none ∨
         parseMetadataOutput env.availabilityZoneOutput = none) :
    homeMetadata env = (SENTINEL, SENTINEL) := by
  rcases hI : parseMetadataOutput env.instanceIdOutput with _ | i
  · rcases hA : parseMetadataOutput env.availabilityZoneOutput with _ | a <;>
      simp [homeMetadata, hI, hA]
  · rcases hA : parseMetadataOutput env.availabilityZoneOutput with _ | a
    · simp [homeMetadata, hI, hA]
    · rcases h with h | h <;> simp_all

theorem renderHome_contains_fst (h i a : String) :
    hasSubstr (renderHome h i a) ("<code>" ++ h ++ "</code>") :=
  ⟨tplA, tplB ++ "<code>" ++ i ++ "</code>" ++ tplC ++ "<code>" ++ a ++ "</code>" ++ tplD,
   by simp only [renderHome, String.append_assoc]⟩

theorem renderHome_contains_snd (h i a : String) :
    hasSubstr (renderHome h i a) ("<code>" ++ i ++ "</code>") :=
  ⟨tplA ++ "<code>" ++ h ++ "</code>" ++ tplB,
   tplC ++ "<code>" ++ a ++ "</code>" ++ tplD,
   by simp only [renderHome, String.append_assoc]⟩

theorem renderHome_contains_thd (h i a : String) :
    hasSubstr (renderHome h i a) ("<code>" ++ a ++ "</code>") :=
  ⟨tplA ++ "<code>" ++ h ++ "</code>" ++ tplB ++ "<code>" ++ i ++ "</code>" ++ tplC,
   tplD,
   by simp only [renderHome, String.append_assoc]⟩

theorem renderHome_sentinel_twice (h : String) :
    hasSubstrTwice (renderHome h SENTINEL SENTINEL) "<code>N/A (not on EC2)</code>" :=
  ⟨tplA ++ "<code>" ++ h ++ "</code>" ++ tplB, tplC, tplD, by
    have hlit : ("<code>N/A (not on EC2)</code>" : String) =
        "<code>" ++ SENTINEL ++ "</code>" := by decide
    rw [hlit]
    simp only [renderHome, String.append_assoc]⟩

/-- Concrete environment for the metadata-failure scenario: the
`ec2-metadata` command is absent, so both invocations produce empty
stdout. -/
def envNoMetadata : Env :=
  { hostname := "web-1", instanceIdOutput := "", availabilityZoneOutput := "" }

/-- Concrete environment for the well-formed metadata scenario of the
spec. -/
def envOnEc2 : Env :=
  { hostname := "ip-10-0-1-23"
    instanceIdOutput := "instance-id: i-0123456789abcdef0"
    availabilityZoneOutput := "availability-zone: us-east-1a" }

/-- Concrete environment with malformed, nonempty instance-id output that
still contains the separator ": ". -/
def envMalformed : Env :=
  { hostname := "web-5"
    instanceIdOutput := "curl: error\nfoo: bar"
    availabilityZoneOutput := "availability-zone: us-east-1a" }

/-- Concrete environment where the instance-id query succeeds but the
availability-zone output is unparsable. -/
def envPartial : Env :=
  { hostname := "web-9"
    instanceIdOutput := "instance-id: i-aaa"
    availabilityZoneOutput := "garbage output" }

/-- C1: every GET / request yields status 200 with the rendered HTML body.
The handler is a total function of the external inputs: every metadata
outcome, including unparsable or empty output, still produces the rendered
page with status 200, never an error. -/
theorem home_always_200_with_html (env : Env) :
    (home env).status = 200 ∧
    (home env).body = renderHome env.hostname (homeMetadata env).1 (homeMetadata env).2 :=
  ⟨rfl, rfl⟩

/-- C2: every GET /api/health response has status 200 and its JSON object
has exactly the keys status, service and hostname, in that order, with
status bound to the literal "healthy". -/
theorem health_always_healthy_shape (hostname : String) :
    (health hostname).status = 200 ∧
    (health hostname).body.map Prod.fst = ["status", "service", "hostname"] ∧
    (health hostname).body.lookup "status" = some "healthy" :=
  ⟨rfl, rfl, rfl⟩

/-- C3: when the metadata query fails (either output fails to parse, in
particular the empty output of an absent command), both fields take the
sentinel and the rendered page contains the sentinel code element twice. -/
theorem home_failure_renders_sentinel_twice (env : Env)
    (h : parseMetadataOutput env.instanceIdOutput = none ∨
         parseMetadataOutput env.availabilityZoneOutput = none) :
    homeMetadata env = (SENTINEL, SENTINEL) ∧
    hasSubstrTwice (home env).body "<code>N/A (not on EC2)</code>" := by
  have hmd := homeMetadata_of_fail env h
  refine ⟨hmd, ?_⟩
  show hasSubstrTwice (renderHome env.hostname (homeMetadata env).1 (homeMetadata env).2) _
  rw [hmd]
  exact renderHome_sentinel_twice env.hostname

/-- C3 witness: with the command absent (both outputs empty) the page shows
the sentinel twice. -/
theorem home_failure_renders_sentinel_twice_witness :
    homeMetadata envNoMetadata = (SENTINEL, SENTINEL) ∧
    hasSubstrTwice (home envNoMetadata).body "<code>N/A (not on EC2)</code>" :=
  home_failure_renders_sentinel_twice envNoMetadata (Or.inl (by decide))

/-- C4: when each metadata output is a well-formed `key: value` text (the
separator ": " occurs exactly once, splitting it into key and value), both
fields hold the text after the separator with surrounding whitespace
stripped, and the page renders those values inside their code elements. -/
theorem home_wellformed_renders_values (env : Env) (k1 v1 k2 v2 : List Char)
    (h1 : env.instanceIdOutput.toList = k1 ++ ':' :: ' ' :: v1)
    (hk1 : splitFirstCS k1 = none) (hv1 : splitFirstCS v1 = none)
    (h2 : env.availabilityZoneOutput.toList = k2 ++ ':' :: ' ' :: v2)
    (hk2 : splitFirstCS k2 = none) (hv2 : splitFirstCS v2 = none) :
    homeMetadata env = ((pyStrip v1).asString, (pyStrip v2).asString) ∧
    hasSubstr (home env).body ("<code>" ++ (pyStrip v1).asString ++ "</code>") ∧
    hasSubstr (home env).body ("<code>" ++ (pyStrip v2).asString ++ "</code>") := by
  have hI := parseMetadataOutput_wellformed _ k1 v1 h1 hk1 hv1
  have hA := parseMetadataOutput_wellformed _ k2 v2 h2 hk2 hv2
  have hmd := homeMetadata_of_success env _ _ hI hA
  refine ⟨hmd, ?_, ?_⟩
  · show hasSubstr (renderHome env.hostname (homeMetadata env).1 (homeMetadata env).2) _
    rw [hmd]
    exact renderHome_contains_snd _ _ _
  · show hasSubstr (renderHome env.hostname (homeMetadata env).1 (homeMetadata env).2) _
    rw [hmd]
    exact renderHome_contains_thd _ _ _

/-- C4 witness: the concrete outputs of the spec scenario render the parsed
instance id and availability zone. -/
theorem home_wellformed_renders_values_witness :
    homeMetadata envOnEc2 = ("i-0123456789abcdef0", "us-east-1a") ∧
    hasSubstr (home envOnEc2).body ("<code>" ++ "i-0123456789abcdef0" ++ "</code>") ∧
    hasSubstr (home envOnEc2).body ("<code>" ++ "us-east-1a" ++ "</code>") :=
  home_wellformed_renders_values envOnEc2
    ("instance-id".toList) ("i-0123456789abcdef0".toList)
    ("availability-zone".toList) ("us-east-1a".toList)
    rfl (by decide) (by decide) rfl (by decide) (by decide)

/-- C5 counterexample: malformed, nonempty output that still contains the
separator ": " is NOT treated as unavailable: the piece between the first
and second separator occurrences is extracted and rendered, a partial
extraction distinct from the sentinel. -/
theorem malformed_output_partially_extracted :
    parseMetadataOutput "curl: error\nfoo: bar" = some "error\nfoo" ∧
    homeMetadata envMalformed = ("error\nfoo", "us-east-1a") ∧
    ("error\nfoo" : String) ≠ SENTINEL ∧
    hasSubstr (home envMalformed).body ("<code>" ++ "error\nfoo" ++ "</code>") := by
  have hmd : homeMetadata envMalformed = ("error\nfoo", "us-east-1a") := by decide
  refine ⟨by decide, hmd, by decide, ?_⟩
  show hasSubstr (renderHome envMalformed.hostname
    (homeMetadata envMalformed).1 (homeMetadata envMalformed).2) _
  rw [hmd]
  exact renderHome_contains_snd _ _ _

/-- C5 (amended): an invocation failure or any output in which the
separator ": " never occurs (including empty output) is treated as
unavailable, yielding the sentinel for both fields; output that does
contain the separator is instead split on it and the second piece is
kept. -/
theorem noSep_output_yields_sentinel (env : Env)
    (h : splitFirstCS env.instanceIdOutput.toList = none ∨
         splitFirstCS env.availabilityZoneOutput.toList = none) :
    homeMetadata env = (SENTINEL, SENTINEL) := by
  refine homeMetadata_of_fail env ?_
  rcases h with h | h
  · exact Or.inl (parseMetadataOutput_of_noSep _ h)
  · exact Or.inr (parseMetadataOutput_of_noSep _ h)

/-- C5 witness: output without any ": " occurrence yields the sentinel
pair. -/
theorem noSep_output_yields_sentinel_witness :
    homeMetadata ⟨"host-a", "no separator in this output", "whatever"⟩ =
      (SENTINEL, SENTINEL) :=
  noSep_output_yields_sentinel ⟨"host-a", "no separator in this output", "whatever"⟩
    (Or.inl (by decide))

/-- C6: within one process environment the hostname interpolated into the
GET / page and the hostname field of the GET /api/health JSON are the same
value. -/
theorem hostname_consistent (env : Env) :
    (health env.hostname).body.lookup "hostname" = some env.hostname ∧
    (home env).body = renderHome env.hostname (homeMetadata env).1 (homeMetadata env).2 ∧
    hasSubstr (home env).body ("<code>" ++ env.hostname ++ "</code>") :=
  ⟨rfl, rfl, renderHome_contains_fst env.hostname (homeMetadata env).1 (homeMetadata env).2⟩

/-- C7: both handlers are deterministic in their external inputs: equal
hostname and metadata-command outputs give structurally identical
responses on repeated invocations. -/
theorem handlers_deterministic (e1 e2 : Env)
    (hh : e1.hostname = e2.hostname)
    (hi : e1.instanceIdOutput = e2.instanceIdOutput)
    (ha : e1.availabilityZoneOutput = e2.availabilityZoneOutput) :
    home e1 = home e2 ∧ health e1.hostname = health e2.hostname := by
  cases e1
  cases e2
  cases hh
  cases hi
  cases ha
  exact ⟨rfl, rfl⟩

/-- C7 witness: two invocations in the same concrete environment give the
same responses. -/
theorem handlers_deterministic_witness :
    home ⟨"w", "a: b", "c: d"⟩ = home ⟨"w", "a: b", "c: d"⟩ ∧
    health (Env.mk "w" "a: b" "c: d").hostname = health "w" :=
  handlers_deterministic ⟨"w", "a: b", "c: d"⟩ ⟨"w", "a: b", "c: d"⟩ rfl rfl rfl

/-- C8: the three values are interpolated verbatim into the fixed template
with no HTML-escaping: the body is exactly the literal chunks with the raw
values between them, and each value occurs character for character inside
its code element, whatever characters it contains. -/
theorem home_interpolates_verbatim (env : Env) :
    (home env).body =
      tplA ++ "<code>" ++ env.hostname ++ "</code>" ++
      tplB ++ "<code>" ++ (homeMetadata env).1 ++ "</code>" ++
      tplC ++ "<code>" ++ (homeMetadata env).2 ++ "</code>" ++ tplD ∧
    hasSubstr (home env).body ("<code>" ++ env.hostname ++ "</code>") ∧
    hasSubstr (home env).body ("<code>" ++ (homeMetadata env).1 ++ "</code>") ∧
    hasSubstr (home env).body ("<code>" ++ (homeMetadata env).2 ++ "</code>") :=
  ⟨rfl,
   renderHome_contains_fst env.hostname (homeMetadata env).1 (homeMetadata env).2,
   renderHome_contains_snd env.hostname (homeMetadata env).1 (homeMetadata env).2,
   renderHome_contains_thd env.hostname (homeMetadata env).1 (homeMetadata env).2⟩

/-- C9: the failure direction is all-or-nothing: when the instance-id
output parses to a value but the availability-zone output does not, the
single except block assigns the sentinel to both fields, discarding the
parsed value, and the page renders the sentinel twice. -/
theorem partial_success_discarded (env : Env) (i : String)
    (_hI : parseMetadataOutput env.instanceIdOutput = some i)
    (hA : parseMetadataOutput env.availabilityZoneOutput = none) :
    homeMetadata env = (SENTINEL, SENTINEL) ∧
    hasSubstrTwice (home env).body "<code>N/A (not on EC2)</code>" := by
  have hmd : homeMetadata env = (SENTINEL, SENTINEL) :=
    homeMetadata_of_fail env (Or.inr hA)
  refine ⟨hmd, ?_⟩
  show hasSubstrTwice (renderHome env.hostname (homeMetadata env).1 (homeMetadata env).2) _
  rw [hmd]
  exact renderHome_sentinel_twice env.hostname

/-- C9 witness: a parsable instance-id with unparsable availability-zone
output still yields the sentinel pair. -/
theorem partial_success_discarded_witness :
    homeMetadata envPartial = (SENTINEL, SENTINEL) ∧
    hasSubstrTwice (home envPartial).body "<code>N/A (not on EC2)</code>" :=
  partial_success_discarded envPartial "i-aaa" (by decide) (by decide)

/-- C10: the service identifier of the health response is exactly the
literal "terraform-docker-web-server" on every invocation. -/
theorem health_service_fixed (hostname : String) :
    (health hostname).body.lookup "service" = some "terraform-docker-web-server" :=
  rfl
